import Mathlib

/-!
Shallow embedding of `src/module/io.c`: the asynchronous filesystem I/O
bridge of the wren CLI.  Each libuv completion callback is modelled as a
pure Lean function from the completed request (and, where the source reads
them, the VM slot state and cached-handle globals) to the sequence of
observable effects it performs, in source order.  Effects — scheduler
resumptions, slot writes, frees, issued OS calls — are recorded as an
explicit trace, so that the temporal claims (one-shot resumption, ordering
of record release against resumption, the two-phase resume protocol) become
statements about these traces.
-/

namespace WrenIO

/-- The metadata snapshot copied out of `request->statbuf` (libuv `uv_stat_t`,
restricted to the fields the module reads). -/
structure UvStat where
  st_dev : Nat
  st_mode : Nat
  st_nlink : Nat
  st_uid : Nat
  st_gid : Nat
  st_rdev : Nat
  st_ino : Nat
  st_size : Nat
  st_blksize : Nat
  st_blocks : Nat
  deriving Repr, DecidableEq

/-- Payload handed to the Stdin `onData_(_)` handler: either the null value
(end of stream) or a chunk of bytes. -/
inductive StdinPayload where
  | nullPayload : StdinPayload
  | bytesPayload : List Nat → StdinPayload
  deriving Repr, DecidableEq

/-- One observable effect of a callback or entry point, in the order the C
code performs them.  Scheduler calls, wren slot API calls, `free`s and
issued OS requests each get a constructor. -/
inductive Event where
  | resume : Bool → Event                 -- schedulerResume(fiber, hasValue)
  | resumeError : String → Event          -- schedulerResumeError(fiber, msg)
  | finishResume : Event                  -- schedulerFinishResume()
  | freeData : Event                      -- free(data)  (the FileRequestData)
  | reqCleanup : Event                    -- uv_fs_req_cleanup(request)
  | freeRequest : Event                   -- free(request)  (the uv_fs_t)
  | freeBuffer : Event                    -- free(buffer.base)
  | ensureSlots : Nat → Event             -- wrenEnsureSlots(vm, n)
  | setSlotDouble : Nat → Int → Event     -- wrenSetSlotDouble(vm, slot, v)
  | setSlotBytes : Nat → List Nat → Event -- wrenSetSlotBytes(vm, slot, b, n)
  | setSlotString : Nat → String → Event  -- wrenSetSlotString(vm, slot, s)
  | setSlotBool : Nat → Bool → Event      -- wrenSetSlotBool(vm, slot, b)
  | setSlotNull : Nat → Event             -- wrenSetSlotNull(vm, slot)
  | setSlotNewList : Nat → Event          -- wrenSetSlotNewList(vm, slot)
  | setSlotValue : Nat → Event            -- wrenSetSlotValue(vm, slot, handle)
  | setSlotNewForeign : Nat → Event       -- wrenSetSlotNewForeign(vm, slot, ..)
  | insertInList : Nat → Event            -- wrenInsertInList(vm, slot, -1, 1)
  | writeStat : UvStat → Event            -- *data = request->statbuf
  | getStatClass : Event                  -- wrenGetVariable("io", "Stat", 0)
  | setForeignFd : Int → Event            -- *foreign = fd  (File descriptor)
  | createRequest : Event                 -- createRequest(fiber)
  | issueClose : Int → Event              -- uv_fs_close(loop, request, fd, cb)
  | lookupStdinClass : Event              -- wrenGetVariable("io", "Stdin", 0)
  | makeOnDataHandle : Event              -- wrenMakeCallHandle(vm,"onData_(_)")
  | callOnData : StdinPayload → Event     -- wrenCall(vm, stdinOnData)
  | closeStream : Event                   -- uv_close((uv_handle_t*)stdinStream)
  | freeStream : Event                    -- free(stdinStream)
  | releaseStdinClass : Event             -- wrenReleaseValue(vm, stdinClass)
  | releaseOnData : Event                 -- wrenReleaseValue(vm, stdinOnData)
  deriving Repr

/-- The completed `uv_fs_t` request as the callbacks see it: the status
(`request->result`), the scandir entries, the owned read buffer contents
(`data->buffer`), the canonicalized path (`request->ptr`) and the stat
snapshot (`request->statbuf`).  Each callback reads only its own fields. -/
structure FsReq where
  result : Int
  entries : List String
  bufData : List Nat
  ptrStr : String
  statbuf : UvStat
  deriving Repr

/-- Model of libuv's `uv_strerror`: turns a negative status code into a
human-readable message.  The exact text is the library's business; the
module only forwards it, so any injective rendering is faithful. -/
def uv_strerror (code : Int) : String := "uv error " ++ toString code

/-- Number of events of a trace satisfying `p`. -/
def countEv (p : Event → Bool) : List Event → Nat
  | [] => 0
  | e :: t => (if p e then 1 else 0) + countEv p t

/-- Index of the first event satisfying `p` (length of the trace if none). -/
def firstIdx (p : Event → Bool) : List Event → Nat
  | [] => 0
  | e :: t => if p e then 0 else firstIdx p t + 1

/-- Either kind of scheduler resumption. -/
def isResumption : Event → Bool
  | .resume _ => true
  | .resumeError _ => true
  | _ => false

/-- A value-path resumption (`schedulerResume`). -/
def isValueResume : Event → Bool
  | .resume _ => true
  | _ => false

/-- An error-path resumption (`schedulerResumeError`). -/
def isErrorResume : Event → Bool
  | .resumeError _ => true
  | _ => false

/-- Release of the Request Record: `free(data)` or `free(request)`. -/
def isRecordFree : Event → Bool
  | .freeData => true
  | .freeRequest => true
  | _ => false

/-- The second resume phase, `schedulerFinishResume`. -/
def isFinishResume : Event → Bool
  | .finishResume => true
  | _ => false

/-- Release of the owned read/write buffer. -/
def isFreeBuffer : Event → Bool
  | .freeBuffer => true
  | _ => false

/-- A write of the result value into the resumed task's slot 2. -/
def writesSlot2 : Event → Bool
  | .setSlotDouble 2 _ => true
  | .setSlotBytes 2 _ => true
  | .setSlotString 2 _ => true
  | .setSlotNewList 2 => true
  | .setSlotValue 2 => true
  | _ => false

/-- `handleRequestError` (io.c:87): if `request->result >= 0` it returns
`false` having done nothing; otherwise it resumes the fiber on the error
path with the translated message, then frees the `FileRequestData`, cleans
up and frees the request, and returns `true`. -/
def handleRequestError (req : FsReq) : Bool × List Event :=
  if req.result ≥ 0 then
    (false, [])
  else
    (true, [.resumeError (uv_strerror req.result), .freeData, .reqCleanup,
            .freeRequest])

/-- The effects of `freeRequest` (io.c:117): free the data, clean up the
request, free it.  The fiber it returns is the one the surrounding
`schedulerResume` call then resumes; in C the argument `freeRequest(request)`
is fully evaluated before `schedulerResume` is entered, so these events
precede the resumption in every success-path trace below. -/
def freeRequestEvents : List Event := [.freeData, .reqCleanup, .freeRequest]

/-- `fileOpenCallback` (io.c:193): error check, then resume with value, write
the descriptor into slot 2, finish the resume. -/
def fileOpenCallback (req : FsReq) : List Event :=
  match handleRequestError req with
  | (true, t) => t
  | (false, _) =>
    freeRequestEvents ++ [.resume true, .setSlotDouble 2 req.result,
                          .finishResume]

/-- `fileSizeCallback` (io.c:233): like open, but the value is
`request->statbuf.st_size`. -/
def fileSizeCallback (req : FsReq) : List Event :=
  match handleRequestError req with
  | (true, t) => t
  | (false, _) =>
    freeRequestEvents ++ [.resume true,
                          .setSlotDouble 2 (Int.ofNat req.statbuf.st_size),
                          .finishResume]

/-- `fileDeleteCallback` (io.c:178): error check, then resume with no value. -/
def fileDeleteCallback (req : FsReq) : List Event :=
  match handleRequestError req with
  | (true, t) => t
  | (false, _) => freeRequestEvents ++ [.resume false]

/-- `fileCloseCallback` (io.c:250): error check, then resume with no value. -/
def fileCloseCallback (req : FsReq) : List Event :=
  match handleRequestError req with
  | (true, t) => t
  | (false, _) => freeRequestEvents ++ [.resume false]

/-- `fileReadBytesCallback` (io.c:284): error check; capture the buffer and
`count = request->result`; resume with value; copy exactly `count` bytes
into slot 2; finish the resume; free the buffer. -/
def fileReadBytesCallback (req : FsReq) : List Event :=
  match handleRequestError req with
  | (true, t) => t
  | (false, _) =>
    freeRequestEvents ++ [.resume true,
                          .setSlotBytes 2 (req.bufData.take req.result.toNat),
                          .finishResume, .freeBuffer]

/-- `fileWriteBytesCallback` (io.c:380): error check; free the owned write
buffer; resume with no value. -/
def fileWriteBytesCallback (req : FsReq) : List Event :=
  match handleRequestError req with
  | (true, t) => t
  | (false, _) => .freeBuffer :: freeRequestEvents ++ [.resume false]

/-- `realPathCallback` (io.c:321): error check; ensure slots; write the
resolved path string into slot 2; only then resume with value and finish. -/
def realPathCallback (req : FsReq) : List Event :=
  match handleRequestError req with
  | (true, t) => t
  | (false, _) =>
    [.ensureSlots 3, .setSlotString 2 req.ptrStr] ++ freeRequestEvents ++
      [.resume true, .finishResume]

/-- `statCallback` (io.c:339): error check; ensure slots; look up and cache
the Stat class if not cached yet (`cached` models `statClass != NULL`);
place the class in slot 2, allocate the foreign Stat object there and copy
`request->statbuf` into it; then resume with value and finish.  Returns the
new cached flag alongside the trace. -/
def statCallback (cached : Bool) (req : FsReq) : Bool × List Event :=
  match handleRequestError req with
  | (true, t) => (cached, t)
  | (false, _) =>
    (true,
     .ensureSlots 3 :: (if cached then [] else [.getStatClass]) ++
       [.setSlotValue 2, .setSlotNewForeign 2, .writeStat req.statbuf] ++
       freeRequestEvents ++ [.resume true, .finishResume])

/-- A value held in a wren API slot, restricted to the shapes this module
stores: numbers, strings, byte sequences, booleans, null, ordered lists and
foreign Stat snapshots. -/
inductive WrenValue where
  | vNull : WrenValue
  | vBool : Bool → WrenValue
  | vNum : Int → WrenValue
  | vStr : String → WrenValue
  | vBytes : List Nat → WrenValue
  | vList : List WrenValue → WrenValue
  | vStat : UvStat → WrenValue

/-- The VM slot array, as a total map from slot index to value. -/
def Slots := Nat → WrenValue

/-- `wrenSetSlot*`: store `v` in slot `i`. -/
def setSlot (s : Slots) (i : Nat) (v : WrenValue) : Slots :=
  fun j => if j = i then v else s j

/-- `wrenInsertInList(vm, listSlot, idx, elemSlot)`: insert slot `elemSlot`'s
value into the list in slot `listSlot`; a negative index counts from the
end, so `-1` appends.  (The module only ever passes `-1`.) -/
def wrenInsertInList (s : Slots) (listSlot : Nat) (idx : Int) (elemSlot : Nat) :
    Slots :=
  match s listSlot with
  | .vList xs =>
    let v := s elemSlot
    let xs' := if idx < 0 then xs ++ [v] else xs.insertIdx idx.toNat v
    setSlot s listSlot (.vList xs')
  | _ => s

/-- The `while (uv_fs_scandir_next(request, &entry) != UV_EOF)` loop of
`directoryListCallback` (io.c:139): for each entry in OS-reported order,
write its name into slot 1 and append slot 1 to the list in slot 2. -/
def scanLoop : List String → Slots → Slots × List Event
  | [], s => (s, [])
  | name :: rest, s =>
    let s2 := wrenInsertInList (setSlot s 1 (.vStr name)) 2 (-1) 1
    ((scanLoop rest s2).1,
     .setSlotString 1 name :: .insertInList 2 :: (scanLoop rest s2).2)

/-- `directoryListCallback` (io.c:129): error check; ensure slots; create a
fresh list in slot 2; append each scandir entry's name in order; then
resume with value and finish. -/
def directoryListCallback (req : FsReq) (s : Slots) : Slots × List Event :=
  match handleRequestError req with
  | (true, t) => (s, t)
  | (false, _) =>
    let s1 := setSlot s 2 (.vList [])
    ((scanLoop req.entries s1).1,
     .ensureSlots 3 :: .setSlotNewList 2 :: (scanLoop req.entries s1).2 ++
       freeRequestEvents ++ [.resume true, .finishResume])

/-- Outcome of the synchronous part of `fileClose` (io.c:257): the
descriptor stored back into the foreign slot, the boolean written to slot 0
(`true` = already closed, done synchronously), whether an async close
request was created and issued, and the effect trace. -/
structure CloseOutcome where
  fdAfter : Int
  returned : Bool
  issued : Bool
  trace : List Event
  deriving Repr

/-- `fileClose` (io.c:257): if the stored descriptor is the sentinel `-1`
the handle is already closed — write `true` to slot 0 and return,
creating no request and issuing no OS call.  Otherwise overwrite the
foreign descriptor with `-1` first, then create the request, issue the
async `uv_fs_close` on the old descriptor, and write `false` to slot 0. -/
def fileClose (fd : Int) : CloseOutcome :=
  if fd = -1 then
    { fdAfter := -1, returned := true, issued := false,
      trace := [.setSlotBool 0 true] }
  else
    { fdAfter := -1, returned := false, issued := true,
      trace := [.setForeignFd (-1), .createRequest, .issueClose fd,
                .setSlotBool 0 false] }

/-- The OS-native open flag constants (`O_RDONLY`, …).  Their numeric values
are platform-defined, so the embedding is parameterized over them. -/
structure OpenFlagConsts where
  O_RDONLY : Nat
  O_WRONLY : Nat
  O_RDWR : Nat
  O_SYNC : Nat
  O_CREAT : Nat
  O_TRUNC : Nat
  O_EXCL : Nat

/-- `mapFileFlags` (io.c:205): translate the portable FileFlags bitset into
OS-native flags, one test per bit, in source order. -/
def mapFileFlags (c : OpenFlagConsts) (flags : Nat) : Nat :=
  let result := 0
  let result := if flags &&& 0x01 ≠ 0 then result ||| c.O_RDONLY else result
  let result := if flags &&& 0x02 ≠ 0 then result ||| c.O_WRONLY else result
  let result := if flags &&& 0x04 ≠ 0 then result ||| c.O_RDWR else result
  let result := if flags &&& 0x08 ≠ 0 then result ||| c.O_SYNC else result
  let result := if flags &&& 0x10 ≠ 0 then result ||| c.O_CREAT else result
  let result := if flags &&& 0x20 ≠ 0 then result ||| c.O_TRUNC else result
  let result := if flags &&& 0x40 ≠ 0 then result ||| c.O_EXCL else result
  result

/-- The read request issued by `fileReadBytes` (io.c:303): the owned buffer
is allocated with exactly the requested `length`, and the read is issued at
the requested `offset`. -/
structure ReadIssue where
  bufLen : Nat
  offset : Nat
  deriving Repr, DecidableEq

/-- `fileReadBytes` (io.c:303): allocate a buffer of `length` bytes and
issue a positioned read at `offset` whose completion runs
`fileReadBytesCallback`. -/
def fileReadBytes (length offset : Nat) : ReadIssue :=
  { bufLen := length, offset := offset }

/-- libuv's end-of-file status code, delivered to `stdinReadCallback` as
`numRead` when stdin is closed. -/
def UV_EOF : Int := -4095

/-- Which kind of stream `stdinReadStart` constructed for descriptor 0:
a TTY handle when stdin is a terminal, a pipe handle otherwise. -/
inductive StreamKind where
  | tty : StreamKind
  | pipe : StreamKind
  deriving Repr, DecidableEq

/-- The module's stdin globals (io.c:38-47): whether `stdinClass` and
`stdinOnData` are cached (non-NULL), the lazily created stream (with its
kind), and whether `uv_read_start` is currently active on it (libuv-side
state toggled by `uv_read_start` / `uv_read_stop`). -/
structure StdinState where
  stdinClass : Bool
  stdinOnData : Bool
  stdinStream : Option StreamKind
  reading : Bool
  deriving Repr, DecidableEq

/-- The state at process start: nothing cached, no stream. -/
def stdinInit : StdinState :=
  { stdinClass := false, stdinOnData := false, stdinStream := none,
    reading := false }

/-- `shutdownStdin` (io.c:50): close and free the stream if present, then
release the cached class handle if present, then the cached method handle
if present, nulling each global. -/
def shutdownStdin (s : StdinState) : StdinState × List Event :=
  let p1 : StdinState × List Event :=
    match s.stdinStream with
    | some _ =>
      ({ s with stdinStream := none, reading := false },
       [Event.closeStream, Event.freeStream])
    | none => (s, [])
  let p2 : StdinState × List Event :=
    if p1.1.stdinClass then
      ({ p1.1 with stdinClass := false }, [Event.releaseStdinClass])
    else (p1.1, [])
  let p3 : StdinState × List Event :=
    if p2.1.stdinOnData then
      ({ p2.1 with stdinOnData := false }, [Event.releaseOnData])
    else (p2.1, [])
  (p3.1, p1.2 ++ p2.2 ++ p3.2)

/-- `stdinReadCallback` (io.c:498): lazily resolve and cache the Stdin class
and the `onData_(_)` call handle; on `UV_EOF`, call the handler with null
and tear the whole subsystem down; otherwise call the handler with the
`numRead` bytes received and free the chunk buffer afterwards. -/
def stdinReadCallback (s : StdinState) (numRead : Int) (buffer : List Nat) :
    StdinState × List Event :=
  let p1 : StdinState × List Event :=
    if s.stdinClass then (s, [])
    else ({ s with stdinClass := true }, [Event.lookupStdinClass])
  let p2 : StdinState × List Event :=
    if p1.1.stdinOnData then (p1.1, [])
    else ({ p1.1 with stdinOnData := true }, [Event.makeOnDataHandle])
  if numRead = UV_EOF then
    ((shutdownStdin p2.1).1,
     p1.2 ++ p2.2 ++
       [.ensureSlots 2, .setSlotValue 0, .setSlotNull 1,
        .callOnData .nullPayload] ++ (shutdownStdin p2.1).2)
  else
    (p2.1,
     p1.2 ++ p2.2 ++
       [.ensureSlots 2, .setSlotValue 0,
        .setSlotBytes 1 (buffer.take numRead.toNat),
        .callOnData (.bytesPayload (buffer.take numRead.toNat)),
        .freeBuffer])

/-- `stdinReadStart` (io.c:541): if no stream exists yet, construct a TTY or
pipe stream for descriptor 0 depending on what stdin is connected to; then
start reading on it. -/
def stdinReadStart (isTTY : Bool) (s : StdinState) : StdinState :=
  let s1 :=
    match s.stdinStream with
    | some _ => s
    | none =>
      { s with stdinStream := some (if isTTY then StreamKind.tty
                                    else StreamKind.pipe) }
  { s1 with reading := true }

/-- `stdinReadStop` (io.c:566): `uv_read_stop(stdinStream)` with no null
check — when no stream exists the C code dereferences a null pointer, which
the embedding surfaces as an error. -/
def stdinReadStop (s : StdinState) : Except String StdinState :=
  match s.stdinStream with
  | none => .error "null stdinStream dereferenced"
  | some _ => .ok { s with reading := false }

/-- An action on the stdin subsystem: a wren-side start or stop call, or the
reactor delivering a read completion (`numRead`, buffer) — the reactor can
deliver only while a stream exists and reading is active. -/
inductive StdinAction where
  | start : Bool → StdinAction
  | stop : StdinAction
  | deliver : Int → List Nat → StdinAction
  deriving Repr, DecidableEq

/-- Whether `a` is a `start` action. -/
def isStart : StdinAction → Bool
  | .start _ => true
  | _ => false

/-- Enabledness: `start` is always callable; `stop` dereferences the stream
so it needs one; the reactor delivers data only on an existing stream with
reading active. -/
def enabledAct (s : StdinState) : StdinAction → Prop
  | .start _ => True
  | .stop => s.stdinStream.isSome = true
  | .deliver _ _ => s.stdinStream.isSome = true ∧ s.reading = true

/-- State transition for one action. -/
def stepState (s : StdinState) : StdinAction → StdinState
  | .start t => stdinReadStart t s
  | .stop =>
    match stdinReadStop s with
    | .ok s2 => s2
    | .error _ => s
  | .deliver n b => (stdinReadCallback s n b).1

/-- A run: every action is enabled in the state it fires from. -/
def enabledRun : StdinState → List StdinAction → Prop
  | _, [] => True
  | s, a :: rest => enabledAct s a ∧ enabledRun (stepState s a) rest

/-- Run a list of actions from `s`. -/
def runState (s : StdinState) : List StdinAction → StdinState
  | [] => s
  | a :: rest => runState (stepState s a) rest

theorem countEv_append (p : Event → Bool) (l₁ l₂ : List Event) :
    countEv p (l₁ ++ l₂) = countEv p l₁ + countEv p l₂ := by
  induction l₁ with
  | nil => simp [countEv]
  | cons e t ih => simp [countEv, ih, Nat.add_assoc]

theorem firstIdx_append (p : Event → Bool) (l₁ l₂ : List Event)
    (h : countEv p l₁ = 0) :
    firstIdx p (l₁ ++ l₂) = l₁.length + firstIdx p l₂ := by
  induction l₁ with
  | nil => simp [firstIdx]
  | cons e t ih =>
    simp only [countEv] at h
    have hpe : p e = false := by
      by_cases hb : p e
      · simp [hb] at h
      · simpa using hb
    have ht : countEv p t = 0 := by omega
    simp [firstIdx, hpe, ih ht]
    omega

theorem scanLoop_countEv (p : Event → Bool)
    (h1 : ∀ n, p (.setSlotString 1 n) = false)
    (h2 : p (.insertInList 2) = false) :
    ∀ (es : List String) (s : Slots), countEv p (scanLoop es s).2 = 0 := by
  intro es
  induction es with
  | nil => intro s; simp [scanLoop, countEv]
  | cons name rest ih => intro s; simp [scanLoop, countEv, h1, h2, ih]

theorem scanLoop_no_value (es : List String) (s : Slots) :
    countEv isValueResume (scanLoop es s).2 = 0 :=
  scanLoop_countEv _ (fun _ => rfl) rfl es s

theorem scanLoop_no_error (es : List String) (s : Slots) :
    countEv isErrorResume (scanLoop es s).2 = 0 :=
  scanLoop_countEv _ (fun _ => rfl) rfl es s

theorem scanLoop_no_recordFree (es : List String) (s : Slots) :
    countEv isRecordFree (scanLoop es s).2 = 0 :=
  scanLoop_countEv _ (fun _ => rfl) rfl es s

theorem scanLoop_no_finish (es : List String) (s : Slots) :
    countEv isFinishResume (scanLoop es s).2 = 0 :=
  scanLoop_countEv _ (fun _ => rfl) rfl es s

/-- An issued async close (`uv_fs_close` with a callback). -/
def isIssueClose : Event → Bool
  | .issueClose _ => true
  | _ => false

/-- A `createRequest` allocation. -/
def isCreateRequest : Event → Bool
  | .createRequest => true
  | _ => false

/-- A write of the foreign descriptor slot. -/
def isSetForeignFd : Event → Bool
  | .setForeignFd _ => true
  | _ => false

/-- An append into the slot-2 list (one per scandir cursor advance). -/
def isInsertInList : Event → Bool
  | .insertInList _ => true
  | _ => false

/-- An all-zero stat snapshot, for concrete evaluation. -/
def demoStat : UvStat := ⟨0, 0, 0, 0, 0, 0, 0, 0, 0, 0⟩

/-- A successfully completed request with empty payloads. -/
def demoReqOk : FsReq :=
  { result := 0, entries := [], bufData := [], ptrStr := "", statbuf := demoStat }

/-- A failed request (`result = -2`, libuv's ENOENT-style negative code). -/
def demoReqErr : FsReq :=
  { result := -2, entries := [], bufData := [], ptrStr := "", statbuf := demoStat }

/-- A completed read: two-byte buffer, one byte actually read. -/
def demoReadReq : FsReq :=
  { result := 1, entries := [], bufData := [104, 105], ptrStr := "",
    statbuf := demoStat }

/-- A slot state holding null everywhere. -/
def demoSlots : Slots := fun _ => .vNull

/-- A trace resumes the waiting task exactly once in total, so via exactly
one of the value path (`schedulerResume`) and the error path
(`schedulerResumeError`), never both. -/
def oneShotResume (t : List Event) : Prop :=
  countEv isValueResume t + countEv isErrorResume t = 1

/-- C1: for every issued file-system operation (open, close, delete, read,
write, size, stat, realpath, directory list), the completion callback — the
single place the waiting task is resumed, and which the reactor fires
exactly once per issued request — resumes the task exactly once, via
exactly one of `schedulerResume` and `schedulerResumeError`, never both,
for every possible completed request. -/
theorem resume_exactly_once (req : FsReq) (cached : Bool) (s : Slots) :
    oneShotResume (fileOpenCallback req) ∧
    oneShotResume (fileSizeCallback req) ∧
    oneShotResume (fileDeleteCallback req) ∧
    oneShotResume (fileCloseCallback req) ∧
    oneShotResume (fileReadBytesCallback req) ∧
    oneShotResume (fileWriteBytesCallback req) ∧
    oneShotResume (realPathCallback req) ∧
    oneShotResume (statCallback cached req).2 ∧
    oneShotResume (directoryListCallback req s).2 := by
  by_cases h : req.result ≥ 0 <;> cases cached <;>
    refine ⟨?_, ?_, ?_, ?_, ?_, ?_, ?_, ?_, ?_⟩ <;>
      simp [oneShotResume, fileOpenCallback, fileSizeCallback,
        fileDeleteCallback, fileCloseCallback, fileReadBytesCallback,
        fileWriteBytesCallback, realPathCallback, statCallback,
        directoryListCallback, handleRequestError, h, freeRequestEvents,
        countEv, countEv_append, isValueResume, isErrorResume,
        scanLoop_no_value, scanLoop_no_error]

/-- C4: the error translator returns `false` and performs no effect when the
request's result is non-negative; when the result is negative it resumes
the waiting task on the error path with the translated message, frees the
Request Record, and returns `true`; and every completion callback calls it
first and, when it reports handled, performs exactly the translator's
effects and nothing more. -/
theorem error_translator_contract (req : FsReq) (cached : Bool) (s : Slots) :
    (req.result ≥ 0 → handleRequestError req = (false, [])) ∧
    (req.result < 0 →
      handleRequestError req =
        (true, [.resumeError (uv_strerror req.result), .freeData, .reqCleanup,
                .freeRequest])) ∧
    (req.result < 0 →
      fileOpenCallback req = (handleRequestError req).2 ∧
      fileSizeCallback req = (handleRequestError req).2 ∧
      fileDeleteCallback req = (handleRequestError req).2 ∧
      fileCloseCallback req = (handleRequestError req).2 ∧
      fileReadBytesCallback req = (handleRequestError req).2 ∧
      fileWriteBytesCallback req = (handleRequestError req).2 ∧
      realPathCallback req = (handleRequestError req).2 ∧
      statCallback cached req = (cached, (handleRequestError req).2) ∧
      directoryListCallback req s = (s, (handleRequestError req).2)) := by
  refine ⟨fun h => by simp [handleRequestError, h], fun h => ?_, fun h => ?_⟩
  · have hn : ¬ req.result ≥ 0 := by omega
    simp [handleRequestError, hn]
  · have hn : ¬ req.result ≥ 0 := by omega
    refine ⟨?_, ?_, ?_, ?_, ?_, ?_, ?_, ?_, ?_⟩ <;>
      simp [fileOpenCallback, fileSizeCallback, fileDeleteCallback,
        fileCloseCallback, fileReadBytesCallback, fileWriteBytesCallback,
        realPathCallback, statCallback, directoryListCallback,
        handleRequestError, hn]

/-- Witness for C4 at concrete requests: result `0` is not handled, result
`-2` short-circuits `fileOpenCallback` into exactly the translator's
effects. -/
theorem error_translator_contract_witness :
    handleRequestError demoReqOk = (false, []) ∧
    fileOpenCallback demoReqErr = (handleRequestError demoReqErr).2 :=
  ⟨(error_translator_contract demoReqOk false demoSlots).1 (by decide),
   ((error_translator_contract demoReqErr false demoSlots).2.2 (by decide)).1⟩

/-- C7: the flag mapper is a pure function of the portable bitset (the same
input always yields the same native flags), maps bit 0 to `O_RDONLY`,
bit 1 to `O_WRONLY`, bit 2 to `O_RDWR`, bit 3 to `O_SYNC`, bit 4 to
`O_CREAT`, bit 5 to `O_TRUNC`, bit 6 to `O_EXCL`, and on the input
read-only|create (`0x11`) produces exactly the union of the two
corresponding native flags and nothing else, for every choice of native
constant values. -/
theorem mapFileFlags_contract (c : OpenFlagConsts) (f : Nat) :
    mapFileFlags c f = mapFileFlags c f ∧
    mapFileFlags c 0x01 = c.O_RDONLY ∧
    mapFileFlags c 0x02 = c.O_WRONLY ∧
    mapFileFlags c 0x04 = c.O_RDWR ∧
    mapFileFlags c 0x08 = c.O_SYNC ∧
    mapFileFlags c 0x10 = c.O_CREAT ∧
    mapFileFlags c 0x20 = c.O_TRUNC ∧
    mapFileFlags c 0x40 = c.O_EXCL ∧
    mapFileFlags c 0x11 = c.O_RDONLY ||| c.O_CREAT := by
  refine ⟨rfl, ?_, ?_, ?_, ?_, ?_, ?_, ?_, ?_⟩
  · show 0 ||| c.O_RDONLY = c.O_RDONLY
    exact Nat.zero_or _
  · show 0 ||| c.O_WRONLY = c.O_WRONLY
    exact Nat.zero_or _
  · show 0 ||| c.O_RDWR = c.O_RDWR
    exact Nat.zero_or _
  · show 0 ||| c.O_SYNC = c.O_SYNC
    exact Nat.zero_or _
  · show 0 ||| c.O_CREAT = c.O_CREAT
    exact Nat.zero_or _
  · show 0 ||| c.O_TRUNC = c.O_TRUNC
    exact Nat.zero_or _
  · show 0 ||| c.O_EXCL = c.O_EXCL
    exact Nat.zero_or _
  · show 0 ||| c.O_RDONLY ||| c.O_CREAT = c.O_RDONLY ||| c.O_CREAT
    rw [Nat.zero_or]

/-- C5: closing an already-closed handle (descriptor `-1`) writes the
synchronous-success flag, creates no request and issues no OS call; closing
an open handle overwrites the descriptor with the sentinel strictly before
the async close is issued, then issues it, and the close completion resumes
with no value (and no finish phase). -/
theorem fileClose_contract (fd : Int) (req : FsReq) :
    (fd = -1 →
      fileClose fd = { fdAfter := -1, returned := true, issued := false,
                       trace := [.setSlotBool 0 true] } ∧
      countEv isIssueClose (fileClose fd).trace = 0 ∧
      countEv isCreateRequest (fileClose fd).trace = 0) ∧
    (fd ≠ -1 →
      (fileClose fd).fdAfter = -1 ∧
      (fileClose fd).issued = true ∧
      (fileClose fd).trace = [.setForeignFd (-1), .createRequest,
                             .issueClose fd, .setSlotBool 0 false] ∧
      firstIdx isSetForeignFd (fileClose fd).trace <
        firstIdx isIssueClose (fileClose fd).trace) ∧
    (req.result ≥ 0 →
      fileCloseCallback req = freeRequestEvents ++ [.resume false] ∧
      countEv isFinishResume (fileCloseCallback req) = 0) := by
  refine ⟨fun h => ?_, fun h => ?_, fun h => ?_⟩
  · subst h
    refine ⟨rfl, ?_, ?_⟩ <;> simp [fileClose, countEv, isIssueClose,
      isCreateRequest]
  · refine ⟨?_, ?_, ?_, ?_⟩ <;>
      simp [fileClose, h, firstIdx, isSetForeignFd, isIssueClose]
  · constructor <;>
      simp [fileCloseCallback, handleRequestError, h, freeRequestEvents,
        countEv, isFinishResume]

/-- Witness for C5 at the concrete descriptors `-1` and `3` and a
successfully completed close request. -/
theorem fileClose_contract_witness :
    fileClose (-1) = { fdAfter := -1, returned := true, issued := false,
                       trace := [.setSlotBool 0 true] } ∧
    (fileClose 3).issued = true ∧
    fileCloseCallback demoReqOk = freeRequestEvents ++ [.resume false] :=
  ⟨((fileClose_contract (-1) demoReqOk).1 rfl).1,
   ((fileClose_contract 3 demoReqOk).2.1 (by decide)).2.1,
   ((fileClose_contract 3 demoReqOk).2.2 (by decide)).1⟩

/-- C6: when a read completes with non-negative result `n`, the callback
resumes the task on the value path with exactly the `n` bytes actually read
— possibly fewer than requested, possibly zero — and never on the error
path; the buffer handed to the OS is allocated by `fileReadBytes` with
exactly the requested length, so `n` ranges over `0..length`. -/
theorem read_short_reads_ok (req : FsReq) (n : Nat)
    (hres : req.result = Int.ofNat n) (hlen : n ≤ req.bufData.length) :
    fileReadBytesCallback req =
      freeRequestEvents ++ [.resume true,
                            .setSlotBytes 2 (req.bufData.take n),
                            .finishResume, .freeBuffer] ∧
    (req.bufData.take n).length = n ∧
    countEv isErrorResume (fileReadBytesCallback req) = 0 ∧
    countEv isValueResume (fileReadBytesCallback req) = 1 ∧
    (∀ length offset : Nat, (fileReadBytes length offset).bufLen = length) := by
  have h0 : req.result ≥ 0 := by rw [hres]; exact Int.ofNat_nonneg n
  have htn : req.result.toNat = n := by rw [hres]; rfl
  refine ⟨?_, ?_, ?_, ?_, fun length offset => rfl⟩ <;>
    simp [fileReadBytesCallback, handleRequestError, h0, htn,
      freeRequestEvents, countEv, isErrorResume, isValueResume,
      List.length_take, Nat.min_eq_left hlen, fileReadBytes]

theorem scanLoop_slot2 (es : List String) :
    ∀ (s : Slots) (xs : List WrenValue), s 2 = .vList xs →
      (scanLoop es s).1 2 = .vList (xs ++ es.map .vStr) := by
  induction es with
  | nil => intro s xs h; simpa [scanLoop] using h
  | cons name rest ih =>
    intro s xs h
    have h1 : (setSlot s 1 (.vStr name)) 2 = .vList xs := by
      simp [setSlot, h]
    have h2 : (wrenInsertInList (setSlot s 1 (.vStr name)) 2 (-1) 1) 2 =
        .vList (xs ++ [.vStr name]) := by
      simp [wrenInsertInList, setSlot, h]
    simp only [scanLoop]
    rw [ih _ _ h2]
    simp

theorem scanLoop_insert_count (es : List String) :
    ∀ s : Slots, countEv isInsertInList (scanLoop es s).2 = es.length := by
  induction es with
  | nil => intro s; simp [scanLoop, countEv]
  | cons name rest ih =>
    intro s
    simp [scanLoop, countEv, isInsertInList, ih, Nat.add_comm]

/-- C8: a successful directory scan resumes the task on the value path with
a freshly created ordered sequence holding exactly the scanned entries'
names in OS-reported order, appending one entry per cursor advance
(`insertInList` fires once per entry); an empty scan yields the empty
sequence, still on the value path. -/
theorem directoryList_contract (req : FsReq) (s : Slots)
    (h : req.result ≥ 0) :
    (directoryListCallback req s).1 2 = .vList (req.entries.map .vStr) ∧
    countEv isInsertInList (directoryListCallback req s).2 =
      req.entries.length ∧
    countEv isValueResume (directoryListCallback req s).2 = 1 ∧
    countEv isErrorResume (directoryListCallback req s).2 = 0 ∧
    countEv isFinishResume (directoryListCallback req s).2 = 1 ∧
    (req.entries = [] →
      (directoryListCallback req s).1 2 = .vList []) := by
  have hslot : (setSlot s 2 (.vList [])) 2 = WrenValue.vList [] := by
    simp [setSlot]
  have hmain : (directoryListCallback req s).1 2 =
      .vList (req.entries.map .vStr) := by
    simp only [directoryListCallback, handleRequestError, h, if_pos]
    rw [scanLoop_slot2 req.entries _ [] hslot]
    simp
  refine ⟨hmain, ?_, ?_, ?_, ?_, fun he => by simp [hmain, he]⟩ <;>
    simp [directoryListCallback, handleRequestError, h, countEv,
      countEv_append, freeRequestEvents, isInsertInList, isValueResume,
      isErrorResume, isFinishResume, scanLoop_insert_count,
      scanLoop_no_value, scanLoop_no_error, scanLoop_no_finish]

/-- Witness for C8: scanning entries `["a", "b"]` resumes with the sequence
`["a", "b"]`; scanning no entries resumes with the empty sequence. -/
theorem directoryList_contract_witness :
    (directoryListCallback
        { result := 0, entries := ["a", "b"], bufData := [], ptrStr := "",
          statbuf := demoStat } demoSlots).1 2 =
      .vList [.vStr "a", .vStr "b"] ∧
    (directoryListCallback demoReqOk demoSlots).1 2 = .vList [] := by
  refine ⟨?_, ?_⟩
  · exact (directoryList_contract
      { result := 0, entries := ["a", "b"], bufData := [], ptrStr := "",
        statbuf := demoStat } demoSlots (by decide)).1
  · exact (directoryList_contract demoReqOk demoSlots (by decide)).2.2.2.2.2
      rfl

theorem scanLoop_no_resumption (es : List String) (s : Slots) :
    countEv isResumption (scanLoop es s).2 = 0 :=
  scanLoop_countEv _ (fun _ => rfl) rfl es s

theorem scanLoop_no_slot2_write (es : List String) (s : Slots) :
    countEv writesSlot2 (scanLoop es s).2 = 0 :=
  scanLoop_countEv _ (fun _ => rfl) rfl es s

/-- The Request Record (`FileRequestData` and the `uv_fs_t`) is released
strictly before any resumption is triggered. -/
def recordFreedBeforeResume (t : List Event) : Prop :=
  firstIdx isRecordFree t < firstIdx isResumption t

/-- The owned buffer is released only after the resumption's finish phase. -/
def bufferFreedAfterFinish (t : List Event) : Prop :=
  firstIdx isFinishResume t < firstIdx isFreeBuffer t

/-- The owned buffer is released strictly before resumption is triggered. -/
def bufferFreedBeforeResume (t : List Event) : Prop :=
  firstIdx isFreeBuffer t < firstIdx isResumption t

/-- Two-phase order as C3 states it: resume, then write slot 2, then
finish. -/
def resumeThenWriteThenFinish (t : List Event) : Prop :=
  firstIdx isValueResume t < firstIdx writesSlot2 t ∧
  firstIdx writesSlot2 t < firstIdx isFinishResume t

/-- The order the write-first callbacks actually use: write slot 2, then
resume, then finish. -/
def writeThenResumeThenFinish (t : List Event) : Prop :=
  firstIdx writesSlot2 t < firstIdx isValueResume t ∧
  firstIdx isValueResume t < firstIdx isFinishResume t

theorem dirList_record_before_resume (req : FsReq) (s : Slots)
    (hok : req.result ≥ 0) :
    recordFreedBeforeResume (directoryListCallback req s).2 := by
  have hX := scanLoop_no_recordFree req.entries (setSlot s 2 (.vList []))
  have hY := scanLoop_no_resumption req.entries (setSlot s 2 (.vList []))
  simp only [recordFreedBeforeResume]
  simp [directoryListCallback, handleRequestError, hok, freeRequestEvents,
    firstIdx, isRecordFree, isResumption]
  rw [firstIdx_append _ _ _ hX, firstIdx_append _ _ _ hY]
  simp [firstIdx, isRecordFree, isResumption]

theorem dirList_write_resume_finish (req : FsReq) (s : Slots)
    (hok : req.result ≥ 0) :
    writeThenResumeThenFinish (directoryListCallback req s).2 := by
  have hV := scanLoop_no_value req.entries (setSlot s 2 (.vList []))
  have hZ := scanLoop_no_finish req.entries (setSlot s 2 (.vList []))
  have hW := scanLoop_no_slot2_write req.entries (setSlot s 2 (.vList []))
  constructor
  · simp [directoryListCallback, handleRequestError, hok, freeRequestEvents,
      firstIdx, writesSlot2, isValueResume]
  · simp [directoryListCallback, handleRequestError, hok, freeRequestEvents,
      firstIdx, isValueResume, isFinishResume]
    rw [firstIdx_append _ _ _ hV, firstIdx_append _ _ _ hZ]
    simp [firstIdx, isValueResume, isFinishResume]

theorem handleRequestError_resumes_first (r : FsReq) (hr : r.result < 0) :
    firstIdx isResumption (handleRequestError r).2 = 0 ∧
    firstIdx isRecordFree (handleRequestError r).2 = 1 := by
  have hn : ¬ r.result ≥ 0 := by omega
  constructor <;>
    simp [handleRequestError, hn, firstIdx, isResumption, isRecordFree]

/-- C2 counterexample: on the write callback's success path the owned
buffer is freed strictly before the resumption is triggered, not only after
it completes, refuting the claimed ordering at this concrete input. -/
theorem write_buffer_freed_before_resume_cex :
    ¬ (firstIdx isResumption (fileWriteBytesCallback demoReqOk) <
       firstIdx isFreeBuffer (fileWriteBytesCallback demoReqOk)) := by
  decide

/-- C2 (amended): on every callback's success path the Request Record is
freed before resumption is triggered, and the read buffer is released only
after the finish phase; but the write buffer is released before resumption
is triggered, and on the error path `handleRequestError` triggers the error
resumption first (index 0) and frees the record afterwards (from index 1). -/
theorem record_and_buffer_ordering (req : FsReq) (cached : Bool) (s : Slots)
    (hok : req.result ≥ 0) :
    recordFreedBeforeResume (fileOpenCallback req) ∧
    recordFreedBeforeResume (fileSizeCallback req) ∧
    recordFreedBeforeResume (fileDeleteCallback req) ∧
    recordFreedBeforeResume (fileCloseCallback req) ∧
    recordFreedBeforeResume (fileReadBytesCallback req) ∧
    recordFreedBeforeResume (fileWriteBytesCallback req) ∧
    recordFreedBeforeResume (realPathCallback req) ∧
    recordFreedBeforeResume (statCallback cached req).2 ∧
    recordFreedBeforeResume (directoryListCallback req s).2 ∧
    bufferFreedAfterFinish (fileReadBytesCallback req) ∧
    bufferFreedBeforeResume (fileWriteBytesCallback req) ∧
    (∀ r : FsReq, r.result < 0 →
      firstIdx isResumption (handleRequestError r).2 = 0 ∧
      firstIdx isRecordFree (handleRequestError r).2 = 1) := by
  refine ⟨?_, ?_, ?_, ?_, ?_, ?_, ?_, ?_,
    dirList_record_before_resume req s hok, ?_, ?_,
    fun r hr => handleRequestError_resumes_first r hr⟩
  all_goals cases cached <;>
    simp [recordFreedBeforeResume, bufferFreedAfterFinish,
      bufferFreedBeforeResume, fileOpenCallback, fileSizeCallback,
      fileDeleteCallback, fileCloseCallback, fileReadBytesCallback,
      fileWriteBytesCallback, realPathCallback, statCallback,
      handleRequestError, hok, freeRequestEvents, firstIdx, isRecordFree,
      isResumption, isFinishResume, isFreeBuffer]

/-- Witness for C2 (amended) at a concrete successful request: the open
callback frees the record before resuming, the read callback frees its
buffer after the finish phase, and a failed request resumes before
freeing. -/
theorem record_and_buffer_ordering_witness :
    recordFreedBeforeResume (fileOpenCallback demoReqOk) ∧
    bufferFreedAfterFinish (fileReadBytesCallback demoReqOk) ∧
    firstIdx isResumption (handleRequestError demoReqErr).2 = 0 := by
  have h := record_and_buffer_ordering demoReqOk false demoSlots (by decide)
  exact ⟨h.1, h.2.2.2.2.2.2.2.2.2.1,
    (h.2.2.2.2.2.2.2.2.2.2.2 demoReqErr (by decide)).1⟩

/-- C3 counterexample: `realPathCallback` writes the resolved path into the
result slot before it resumes the task, refuting the claimed
resume-then-write order at this concrete input. -/
theorem realPath_writes_before_resume_cex :
    ¬ (firstIdx isValueResume (realPathCallback demoReqOk) <
       firstIdx writesSlot2 (realPathCallback demoReqOk)) := by
  decide

/-- C3 (amended): the open, size and read callbacks resume, then write the
result into slot 2, then finalize with `schedulerFinishResume`; the
realpath, stat and directory-list callbacks instead write the result into
slot 2 first, then resume, then finalize; the close and delete callbacks
resume with no value, perform no slot-2 write and no finish phase. -/
theorem resume_phase_ordering (req : FsReq) (cached : Bool) (s : Slots)
    (hok : req.result ≥ 0) :
    resumeThenWriteThenFinish (fileOpenCallback req) ∧
    resumeThenWriteThenFinish (fileSizeCallback req) ∧
    resumeThenWriteThenFinish (fileReadBytesCallback req) ∧
    writeThenResumeThenFinish (realPathCallback req) ∧
    writeThenResumeThenFinish (statCallback cached req).2 ∧
    writeThenResumeThenFinish (directoryListCallback req s).2 ∧
    (fileDeleteCallback req = freeRequestEvents ++ [.resume false] ∧
     countEv isFinishResume (fileDeleteCallback req) = 0 ∧
     countEv writesSlot2 (fileDeleteCallback req) = 0) ∧
    (fileCloseCallback req = freeRequestEvents ++ [.resume false] ∧
     countEv isFinishResume (fileCloseCallback req) = 0 ∧
     countEv writesSlot2 (fileCloseCallback req) = 0) := by
  refine ⟨?_, ?_, ?_, ?_, ?_, dirList_write_resume_finish req s hok,
    ⟨?_, ?_, ?_⟩, ⟨?_, ?_, ?_⟩⟩
  all_goals cases cached <;>
    simp [resumeThenWriteThenFinish, writeThenResumeThenFinish,
      fileOpenCallback, fileSizeCallback, fileReadBytesCallback,
      realPathCallback, statCallback, fileDeleteCallback, fileCloseCallback,
      handleRequestError, hok, freeRequestEvents, firstIdx, countEv,
      isValueResume, isFinishResume, writesSlot2]

/-- Witness for C3 (amended) at a concrete successful request: the open
callback follows resume-write-finish, the realpath callback follows
write-resume-finish, and the delete callback resumes with no value and no
finish phase. -/
theorem resume_phase_ordering_witness :
    resumeThenWriteThenFinish (fileOpenCallback demoReqOk) ∧
    writeThenResumeThenFinish (realPathCallback demoReqOk) ∧
    countEv isFinishResume (fileDeleteCallback demoReqOk) = 0 := by
  have h := resume_phase_ordering demoReqOk false demoSlots (by decide)
  exact ⟨h.1, h.2.2.2.1, h.2.2.2.2.2.2.1.2.1⟩

/-- Witness for C6: a two-byte buffer whose read returned a single byte is
delivered as exactly that one byte, on the value path. -/
theorem read_short_reads_ok_witness :
    fileReadBytesCallback demoReadReq =
      freeRequestEvents ++ [.resume true, .setSlotBytes 2 [104],
                            .finishResume, .freeBuffer] ∧
    countEv isErrorResume (fileReadBytesCallback demoReadReq) = 0 := by
  have h := read_short_reads_ok demoReadReq 1 rfl (by decide)
  exact ⟨h.1, h.2.2.1⟩

/-- A handler invocation with the null payload (end-of-stream delivery). -/
def isCallNull : Event → Bool
  | .callOnData .nullPayload => true
  | _ => false

/-- Any handler invocation (data callback), whatever the payload. -/
def isCallData : Event → Bool
  | .callOnData _ => true
  | _ => false

/-- The stream teardown (`uv_close` on the stdin stream). -/
def isCloseStream : Event → Bool
  | .closeStream => true
  | _ => false

/-- Any teardown effect of `shutdownStdin`: closing or freeing the stream,
or releasing a cached class/method handle. -/
def isTeardown : Event → Bool
  | .closeStream => true
  | .freeStream => true
  | .releaseStdinClass => true
  | .releaseOnData => true
  | _ => false

theorem enabledRun_append (s : StdinState) (l₁ l₂ : List StdinAction) :
    enabledRun s (l₁ ++ l₂) ↔
      enabledRun s l₁ ∧ enabledRun (runState s l₁) l₂ := by
  induction l₁ generalizing s with
  | nil => simp [enabledRun, runState]
  | cons a t ih => simp [enabledRun, runState, ih, and_assoc]

theorem stdin_eof_clears_stream (s : StdinState) (b : List Nat) :
    (stdinReadCallback s UV_EOF b).1.stdinStream = none := by
  rcases s with ⟨c, o, st, r⟩
  cases c <;> cases o <;> cases st <;>
    simp [stdinReadCallback, shutdownStdin, UV_EOF]

/-- In any enabled run of the stdin transition system, a data delivery that
follows an end-of-stream delivery must be separated from it by a fresh
`start`: the EOF callback leaves no stream, and without a start no stop or
delivery is enabled. -/
theorem stdin_second_delivery_needs_start (s1 : StdinState)
    (pre mid post : List StdinAction) (b b2 : List Nat) (n2 : Int)
    (hrun : enabledRun s1
      (pre ++ (.deliver UV_EOF b :: (mid ++ (.deliver n2 b2 :: post))))) :
    ∃ a ∈ mid, isStart a = true := by
  rw [enabledRun_append] at hrun
  have h2 : enabledAct (runState s1 pre) (.deliver UV_EOF b) ∧
      enabledRun (stepState (runState s1 pre) (.deliver UV_EOF b))
        (mid ++ .deliver n2 b2 :: post) := hrun.2
  have h3 := h2.2
  have hnone : (stepState (runState s1 pre)
      (.deliver UV_EOF b)).stdinStream = none :=
    stdin_eof_clears_stream (runState s1 pre) b
  cases mid with
  | nil =>
    exfalso
    have h4 : enabledAct (stepState (runState s1 pre) (.deliver UV_EOF b))
        (.deliver n2 b2) ∧
        enabledRun (stepState (stepState (runState s1 pre)
          (.deliver UV_EOF b)) (.deliver n2 b2)) post := h3
    have h5 := h4.1.1
    rw [hnone] at h5
    exact Bool.false_ne_true h5
  | cons a mid' =>
    have h4 : enabledAct (stepState (runState s1 pre) (.deliver UV_EOF b)) a ∧
        enabledRun (stepState (stepState (runState s1 pre)
          (.deliver UV_EOF b)) a) (mid' ++ .deliver n2 b2 :: post) := h3
    cases a with
    | start t => exact ⟨.start t, List.mem_cons_self _ _, rfl⟩
    | stop =>
      exfalso
      have h5 : (stepState (runState s1 pre)
          (.deliver UV_EOF b)).stdinStream.isSome = true := h4.1
      rw [hnone] at h5
      exact Bool.false_ne_true h5
    | deliver n3 b3 =>
      exfalso
      have h5 := h4.1.1
      rw [hnone] at h5
      exact Bool.false_ne_true h5

/-- C9: delivering end-of-stream to the stdin read callback invokes the data
handler exactly once, with the null payload and with no other payload, and
only then tears the subsystem down — the null-payload handler call strictly
precedes every teardown effect — exactly once (one stream close, every
global cleared back to the uninitialized state); and in any enabled run of
the subsystem, any data delivery that follows an end-of-stream delivery is
separated from it by a fresh `start` — so within one lifetime of the
subsystem no further data-callback invocation occurs after end-of-stream
and a second end-of-stream is never delivered. -/
theorem stdin_eof_shutdown_once (s0 s1 : StdinState) (buf b b2 : List Nat)
    (n2 : Int) (pre mid post : List StdinAction)
    (hs : s0.stdinStream.isSome = true)
    (hrun : enabledRun s1
      (pre ++ (.deliver UV_EOF b :: (mid ++ (.deliver n2 b2 :: post))))) :
    countEv isCallNull (stdinReadCallback s0 UV_EOF buf).2 = 1 ∧
    countEv isCallData (stdinReadCallback s0 UV_EOF buf).2 = 1 ∧
    countEv isCloseStream (stdinReadCallback s0 UV_EOF buf).2 = 1 ∧
    firstIdx isCallNull (stdinReadCallback s0 UV_EOF buf).2 <
      firstIdx isTeardown (stdinReadCallback s0 UV_EOF buf).2 ∧
    (stdinReadCallback s0 UV_EOF buf).1 = stdinInit ∧
    ∃ a ∈ mid, isStart a = true := by
  refine ⟨?_, ?_, ?_, ?_, ?_,
    stdin_second_delivery_needs_start s1 pre mid post b b2 n2 hrun⟩
  all_goals
    rcases s0 with ⟨c, o, st, r⟩
    cases st with
    | none => simp at hs
    | some k =>
      cases c <;> cases o <;>
        simp [stdinReadCallback, shutdownStdin, UV_EOF, countEv, firstIdx,
          isCallNull, isCallData, isCloseStream, isTeardown, stdinInit]

/-- Witness for C9: from a freshly started subsystem, one end-of-stream
delivery calls the handler once with null, and that call strictly precedes
every teardown effect; and in the concrete enabled run start, EOF, start,
EOF, the action separating the two EOF deliveries is indeed a start. -/
theorem stdin_eof_shutdown_once_witness :
    countEv isCallNull
      (stdinReadCallback (stdinReadStart false stdinInit) UV_EOF []).2 = 1 ∧
    firstIdx isCallNull
        (stdinReadCallback (stdinReadStart false stdinInit) UV_EOF []).2 <
      firstIdx isTeardown
        (stdinReadCallback (stdinReadStart false stdinInit) UV_EOF []).2 ∧
    ∃ a ∈ [StdinAction.start false], isStart a = true := by
  have h := stdin_eof_shutdown_once (stdinReadStart false stdinInit)
    stdinInit [] [] [] UV_EOF [.start false] [.start false] []
    rfl
    ⟨trivial, ⟨rfl, rfl⟩, trivial, ⟨rfl, rfl⟩, trivial⟩
  exact ⟨h.1, h.2.2.2.1, h.2.2.2.2.2⟩

/-- C10: `stdinReadStop` dereferences the global stdin stream
unconditionally, so on the embedding it errors exactly when no stream
exists (no `stdinReadStart` since the last shutdown); under the implicit
precondition that a stream exists — established by every `stdinReadStart`
and destroyed by every shutdown — the error branch is unreachable and stop
merely clears the reading flag. -/
theorem stdinReadStop_safety (s : StdinState) (t : Bool) :
    (s.stdinStream = none →
      stdinReadStop s = .error "null stdinStream dereferenced") ∧
    (s.stdinStream ≠ none →
      ∃ s2, stdinReadStop s = .ok s2 ∧ s2.reading = false) ∧
    ((stdinReadStart t s).stdinStream.isSome = true) ∧
    ((shutdownStdin s).1.stdinStream = none) := by
  refine ⟨fun h => by simp [stdinReadStop, h], fun h => ?_, ?_, ?_⟩
  · cases hst : s.stdinStream with
    | none => exact absurd hst h
    | some k => exact ⟨{ s with reading := false }, by simp [stdinReadStop, hst],
        rfl⟩
  · cases hst : s.stdinStream <;> simp [stdinReadStart, hst]
  · rcases s with ⟨c, o, st, r⟩
    cases c <;> cases o <;> cases st <;> simp [shutdownStdin]

/-- Witness for C10: stopping with no stream errors; stopping after a start
succeeds and clears the reading flag. -/
theorem stdinReadStop_safety_witness :
    stdinReadStop stdinInit = .error "null stdinStream dereferenced" ∧
    ∃ s2, stdinReadStop (stdinReadStart false stdinInit) = .ok s2 ∧
      s2.reading = false :=
  ⟨(stdinReadStop_safety stdinInit false).1 rfl,
   (stdinReadStop_safety (stdinReadStart false stdinInit) false).2.1
     (by decide)⟩

end WrenIO
